import Mathlib

/-!
Verification of the ALVAR marker-detector wrappers of goblin-xna
(`src/wrappers/ALVARWrapper1.3/ALVARWrapper/MarkerDetectorWrapper.cpp` and
`src/wrappers/ALVARWrapper1.5/ALVARWrapper/MarkerDetectorWrapper.cpp`).

The wrappers are thin session controllers around the ALVAR vision engine.
This file gives a shallow embedding of the wrapper's global state and of its
exported entry points, with the vision engine (marker detection, pose math,
geometry parsing, calibration numerics, file persistence) abstracted as an
environment `Env` of external operations, exactly as the spec treats them
(external collaborators behind narrow contracts).

The two source variants share all the logic relevant to the claims; variant
1.5 generalizes variant 1.3 by adding a second detector instance selected by
`detector_id` and a calibration session.  Loop bodies shared verbatim between
both files are embedded once and instantiated by each variant's entry point
(variant 1.3 corresponds to `detector_id = 0` and a single detector).
-/

/-- A 6-DoF pose as produced by the vision engine; opaque data here. -/

structure Pose where
  val : ℤ
  deriving DecidableEq, Inhabited

/-- One detected marker: integer id plus estimated pose
(ALVAR `MarkerData`: `GetId()` and `.pose`). -/

structure Marker where
  id : ℤ
  pose : Pose
  deriving DecidableEq, Inhabited

/-- Opaque bundle geometry as parsed by `MultiMarker::Load`. -/

abbrev Geom := ℕ

/-- Opaque chessboard observation accumulated by
`ProjPoints::AddPointsUsingChessboard`. -/

abbrev Obs := ℕ

/-- Opaque camera frame (the caller's raw image buffer). -/

abbrev Frame := ℕ

/-- A registered multi-marker bundle (`MultiMarker`): the member ids given at
construction plus the geometry parsed by `Load` (`none` when the parse
failed, leaving the object half-initialized). -/

structure Bundle where
  memberIds : List ℤ
  geometry : Option Geom
  deriving DecidableEq, Inhabited

/-- Camera calibration state: loaded exactly from a file (`Camera::SetCalib`),
synthetic from resolution alone (`Camera::SetRes`), or computed from
accumulated observations (`Camera::Calibrate`). -/

inductive Calib
  | loaded (file : String) (w h : ℤ)
  | synthetic (w h : ℤ)
  | computed (raw : ℕ)
  deriving DecidableEq, Inhabited

/-!
## The id → index table and interest resolution
(`alvar_detect_marker`, 1.3 lines 162-187, 1.5 lines 183-212)

The source uses a `std::map<int,int>` (`idTable`); `idTable[tmpID] = i`
inserts or overwrites.  We embed the map as an association list with
insert-or-replace and lookup.
-/

/-- `idTable[k] = v`: insert-or-replace into the association list. -/

def mapInsert : List (ℤ × ℕ) → ℤ → ℕ → List (ℤ × ℕ)
  | [], k, v => [(k, v)]
  | (k', v') :: rest, k, v =>
      if k' = k then (k, v) :: rest else (k', v') :: mapInsert rest k v

/-- `idTable.find(k)`: lookup in the association list. -/

def mapFind : List (ℤ × ℕ) → ℤ → Option ℕ
  | [], _ => none
  | (k', v') :: rest, k => if k' = k then some v' else mapFind rest k

/-- The table-building loop: `for i: idTable[markers[i].GetId()] = i`,
starting at index `i` with the current table `t`. -/

def buildIdTableAux : List (ℤ × ℕ) → ℕ → List ℤ → List (ℤ × ℕ)
  | t, _, [] => t
  | t, i, x :: rest => buildIdTableAux (mapInsert t x i) (i + 1) rest

/-- The id → index table built from the detection result's ids in order. -/

def buildIdTable (ids : List ℤ) : List (ℤ × ℕ) :=
  buildIdTableAux [] 0 ids

/-- The lookup loop: for each requested id in order, look it up in the table;
on a hit push the index onto `foundMarkers` and bump `markerCount`. -/

def resolveLoop (t : List (ℤ × ℕ)) : List ℤ → List ℕ × ℕ
  | [] => ([], 0)
  | x :: rest =>
      let r := resolveLoop t rest
      match mapFind t x with
      | some idx => (idx :: r.1, r.2 + 1)
      | none => r

/-- The interest-resolution step of `alvar_detect_marker`: guarded by
`markers->size() > 0 && interestedMarkerNum > 0`; otherwise `foundMarkers`
stays cleared and the reported count is `0`. -/

def resolveInterest (markerIds requested : List ℤ) : List ℕ × ℕ :=
  if 0 < markerIds.length ∧ 0 < requested.length then
    resolveLoop (buildIdTable markerIds) requested
  else ([], 0)

/-- Specification-side description of the table's content: the index of the
last occurrence of `x` in the id list (later detections overwrite earlier
ones in `idTable`). -/

def lastIdx : List ℤ → ℤ → Option ℕ
  | [], _ => none
  | y :: rest, x =>
      match lastIdx rest x with
      | some k => some (k + 1)
      | none => if y = x then some 0 else none

/-!
## Hide-texture extraction
(`alvar_get_poses` copy loop: 1.3 lines 209-217, 1.5 lines 243-251;
`alvar_get_multi_marker_poses` copy loop: 1.3 lines 251-259, 1.5 lines
288-296)

`BuildHideTexture` (external) fills the internal scratch texture; the wrapper
then copies `hide_texture->imageData` into the caller's buffer in steps of
`channels` bytes.  The single-marker path copies bytes `j, j+1, j+2` in
order; the multi-marker path copies `j+2, j+1, j` (first and third channel
swapped); both copy byte `j+3` unchanged when `channels == 4`.  We model the
scratch texture as a byte function `src : ℕ → ℕ` and the caller's buffer as
the list of per-iteration channel groups.
-/

/-- One iteration of the single-marker copy loop at byte offset `j`. -/

def hideGroupSingle (channels : ℕ) (src : ℕ → ℕ) (j : ℕ) : List ℕ :=
  [src j, src (j + 1), src (j + 2)] ++
    (if channels = 4 then [src (j + 3)] else [])

/-- One iteration of the multi-marker copy loop at byte offset `j`
(first and third channel swapped). -/

def hideGroupMulti (channels : ℕ) (src : ℕ → ℕ) (j : ℕ) : List ℕ :=
  [src (j + 2), src (j + 1), src j] ++
    (if channels = 4 then [src (j + 3)] else [])

/-- Number of iterations of `for(j = 0; j < hideTextureSize; j += channels)`. -/

def numHideGroups (hideTextureSize channels : ℕ) : ℕ :=
  (hideTextureSize + channels - 1) / channels

/-- The full single-marker-path copy: one group per loop iteration. -/

def hideCopySingle (channels n : ℕ) (src : ℕ → ℕ) : List (List ℕ) :=
  (List.range n).map (fun g => hideGroupSingle channels src (g * channels))

/-- The full multi-marker-path copy: one group per loop iteration. -/

def hideCopyMulti (channels n : ℕ) (src : ℕ → ℕ) : List (List ℕ) :=
  (List.range n).map (fun g => hideGroupMulti channels src (g * channels))

/-- Specification-side operation: swap the first and third entry of a
channel group (the red/blue swap the spec describes). -/

def swapFirstThird : List ℕ → List ℕ
  | a :: b :: c :: rest => c :: b :: a :: rest
  | l => l

/-!
## The abstract vision engine

All ALVAR operations the wrapper calls are modelled as an environment of
(deterministic, pure) external operations.  Indices `0` and `1` of `detect`
stand for the instances `markerDetector` and `markerDetector2`.
-/

/-- The external vision-engine operations used by the wrapper. -/

structure Env where
  /-- `MarkerDetector::Detect` on detector instance `d`: the fresh
  detection result for a frame and the two error thresholds. -/
  detect : ℕ → Frame → ℚ → ℚ → List Marker
  /-- Effect of `MarkerDetector::DetectAdditional` on the primary
  detector's marker list (track-only refinement). -/
  detectAdd : List Marker → List Marker
  /-- `MultiMarker::Update`: reprojection error and aggregate pose of a
  bundle from a marker list. -/
  update : Bundle → List Marker → ℚ × Pose
  /-- `Pose::GetMatrixGL`: export to a 16-entry column-major matrix. -/
  getMatrixGL : Pose → List ℚ
  /-- Content of the scratch `hide_texture` after `BuildHideTexture` with
  the given pose matrix: byte at each index. -/
  buildHide : List ℚ → ℕ → ℕ
  /-- Whether `Camera::SetCalib` succeeds in parsing a calibration file. -/
  setCalibOk : String → Bool
  /-- `ProjPoints::AddPointsUsingChessboard`: the observation found in a
  frame (square size, rows, columns), if any. -/
  chessboard : Frame → ℚ → ℤ → ℤ → Option Obs
  /-- `Camera::Calibrate`: calibration computed from the accumulated
  observations. -/
  calibrate : List Obs → Calib
  /-- Whether `Camera::SaveCalib` succeeds in writing the file. -/
  saveCalibOk : String → Bool
  /-- `MultiMarker::Load` with `FILE_FORMAT_XML`: parsed geometry, `none`
  on parse failure.  File names are character lists (C strings). -/
  loadXml : List Char → Option Geom
  /-- `MultiMarker::Load` with the default format: parsed geometry, `none`
  on parse failure. -/
  loadDefault : List Char → Option Geom

/-- Whether the character list starts with the given needle
(helper for `strstr`). -/

def startsWithSeq : List Char → List Char → Bool
  | _, [] => true
  | [], _ :: _ => false
  | c :: cs, d :: ds => c == d && startsWithSeq cs ds

/-- `strstr(haystack, needle) != NULL`: the needle occurs somewhere in the
haystack. -/

def containsSeq (needle : List Char) : List Char → Bool
  | [] => startsWithSeq [] needle
  | c :: cs => startsWithSeq (c :: cs) needle || containsSeq needle cs

/-- `strstr(filename, ".xml") != NULL` followed by the matching `Load`
overload (`alvar_add_multi_marker`, both variants). -/

def loadByExt (env : Env) (filename : List Char) : Option Geom :=
  if containsSeq ".xml".toList filename then env.loadXml filename
  else env.loadDefault filename

/-!
## Session state of the two wrapper variants

The globals of each source file, with the external-library objects
(`Camera`, the `IplImage`, the scratch texture) reduced to the data the
wrapper itself reads or writes.
-/

/-- The globals of variant 1.3 (single detector instance). -/

structure St13 where
  cam : Calib
  cam_width : ℤ
  cam_height : ℤ
  /-- `markerDetector.markers` (current detection result). -/
  markers : List Marker
  multiMarkers : List Bundle
  idTable : List (ℤ × ℕ)
  foundMarkers : List ℕ
  detect_additional : Bool
  curMaxTrackError : ℚ
  hide_texture_size : ℕ
  channels : ℕ
  margin : ℚ
  deriving DecidableEq, Inhabited

/-- The globals of variant 1.5 (two detector instances, calibration
session). -/

structure St15 where
  cam : Calib
  cam_width : ℤ
  cam_height : ℤ
  /-- `markerDetector.markers`. -/
  markers0 : List Marker
  /-- `markerDetector2.markers`. -/
  markers1 : List Marker
  multiMarkers : List Bundle
  idTable : List (ℤ × ℕ)
  foundMarkers : List ℕ
  detect_additional : Bool
  curMaxTrackError : ℚ
  detector_id : ℤ
  pp : List Obs
  calibration_started : Bool
  bundle_initialized : Bool
  hide_texture_size : ℕ
  channels : ℕ
  margin : ℚ
  deriving DecidableEq, Inhabited

/-- The detection result of the currently active detector
(`detector_id == 0 ? markerDetector.markers : markerDetector2.markers`). -/

def activeMarkers15 (st : St15) : List Marker :=
  if st.detector_id = 0 then st.markers0 else st.markers1

/-!
## Entry points shared by both variants
-/

/-- `alvar_init_camera` (1.3 lines 60-74): `ret = 0` exactly when a non-null
calibration file is supplied and `SetCalib` parses it; otherwise `ret = -1`
and `SetRes` derives a synthetic calibration; resolution stored,
`detect_additional` reset. -/

def alvar_init_camera13 (env : Env) (st : St13) (calibFile : Option String)
    (w h : ℤ) : ℤ × St13 :=
  match calibFile with
  | some f =>
      if env.setCalibOk f then
        (0, { st with cam := Calib.loaded f w h, cam_width := w,
                      cam_height := h, detect_additional := false })
      else
        (-1, { st with cam := Calib.synthetic w h, cam_width := w,
                       cam_height := h, detect_additional := false })
  | none =>
      (-1, { st with cam := Calib.synthetic w h, cam_width := w,
                     cam_height := h, detect_additional := false })

/-- `alvar_init_camera` (1.5 lines 73-90): as 1.3, additionally resetting
`detector_id`, `bundle_initialized` and `calibration_started`. -/

def alvar_init_camera15 (env : Env) (st : St15) (calibFile : Option String)
    (w h : ℤ) : ℤ × St15 :=
  match calibFile with
  | some f =>
      if env.setCalibOk f then
        (0, { st with cam := Calib.loaded f w h, cam_width := w,
                      cam_height := h, detector_id := 0,
                      detect_additional := false,
                      bundle_initialized := false,
                      calibration_started := false })
      else
        (-1, { st with cam := Calib.synthetic w h, cam_width := w,
                       cam_height := h, detector_id := 0,
                       detect_additional := false,
                       bundle_initialized := false,
                       calibration_started := false })
  | none =>
      (-1, { st with cam := Calib.synthetic w h, cam_width := w,
                     cam_height := h, detector_id := 0,
                     detect_additional := false,
                     bundle_initialized := false,
                     calibration_started := false })

/-- `alvar_add_multi_marker` (1.3 lines 108-120, 1.5 lines 130-142): builds
the `MultiMarker` from the ids, calls `Load` (return value ignored) and
`push_back`s the bundle unconditionally; the function returns `void`. -/

def addMultiMarker (env : Env) (registry : List Bundle) (ids : List ℤ)
    (filename : List Char) : List Bundle :=
  registry ++ [{ memberIds := ids, geometry := loadByExt env filename }]

/-- Variant-1.3 entry point for `alvar_add_multi_marker`. -/

def alvar_add_multi_marker13 (env : Env) (st : St13) (ids : List ℤ)
    (filename : List Char) : St13 :=
  { st with multiMarkers := addMultiMarker env st.multiMarkers ids filename }

/-- Variant-1.5 entry point for `alvar_add_multi_marker`. -/

def alvar_add_multi_marker15 (env : Env) (st : St15) (ids : List ℤ)
    (filename : List Char) : St15 :=
  { st with multiMarkers := addMultiMarker env st.multiMarkers ids filename }

/-- `alvar_detect_marker` (1.3 lines 129-187): runs a full detect on the
detector, records `curMaxTrackError`, reports the found-marker count, and
resolves the requested ids (returned pair: `*numFoundMarkers`,
`*numInterestedMarkers`). -/

def alvar_detect_marker13 (env : Env) (st : St13) (frame : Frame)
    (requested : List ℤ) (maxMarkerError maxTrackError : ℚ) :
    ℕ × ℕ × St13 :=
  let ms := env.detect 0 frame maxMarkerError maxTrackError
  let ids := ms.map Marker.id
  let r := resolveInterest ids requested
  (ms.length, r.2,
   { st with markers := ms, curMaxTrackError := maxTrackError,
             foundMarkers := r.1,
             idTable := if 0 < ms.length ∧ 0 < requested.length then
                          buildIdTable ids
                        else st.idTable })

/-- `alvar_detect_marker` (1.5 lines 144-212): as 1.3 but the detect runs on
the active detector instance. -/

def alvar_detect_marker15 (env : Env) (st : St15) (frame : Frame)
    (requested : List ℤ) (maxMarkerError maxTrackError : ℚ) :
    ℕ × ℕ × St15 :=
  let st1 :=
    if st.detector_id = 0 then
      { st with markers0 := env.detect 0 frame maxMarkerError maxTrackError }
    else
      { st with markers1 := env.detect 1 frame maxMarkerError maxTrackError }
  let st2 := { st1 with curMaxTrackError := maxTrackError }
  let ids := (activeMarkers15 st2).map Marker.id
  let r := resolveInterest ids requested
  ((activeMarkers15 st2).length, r.2,
   { st2 with foundMarkers := r.1,
              idTable := if 0 < ids.length ∧ 0 < requested.length then
                           buildIdTable ids
                         else st2.idTable })

/-- `alvar_set_detect_additional` (both variants). -/

def alvar_set_detect_additional15 (st : St15) (enable : Bool) : St15 :=
  { st with detect_additional := enable }

/-- `alvar_select_detector` (1.5 lines 125-128). -/

def alvar_select_detector15 (st : St15) (id : ℤ) : St15 :=
  { st with detector_id := id }

/-- `alvar_set_hide_texture_configuration` (both variants): records the
texture size/channel configuration (the scratch image itself is external). -/

def alvar_set_hide_texture_configuration15 (st : St15) (size depth ch : ℕ)
    (m : ℚ) : St15 :=
  { st with hide_texture_size := size * size * ch, channels := ch,
            margin := m }

/-!
## Single-marker pose path (`alvar_get_poses`)
(1.3 lines 189-220, 1.5 lines 214-254)
-/

/-- Outputs written by `alvar_get_poses`: the id, pose-matrix and (when
requested) hide-texture buffer entries, one per resolved interest index. -/

structure GPOut where
  ids : List ℤ
  mats : List (List ℚ)
  hides : List (List (List ℕ))
  deriving DecidableEq, Inhabited

/-- The `alvar_get_poses` loop over `foundMarkers`, reading the active
detection result `markersA` (variant 1.3 always passes
`markerDetector.markers`; variant 1.5 passes the active instance's list). -/

def gpLoop (env : Env) (markersA : List Marker) (ch grp : ℕ) (rh : Bool) :
    List ℕ → GPOut
  | [] => { ids := [], mats := [], hides := [] }
  | k :: rest =>
      let m := markersA.getD k default
      let mat := env.getMatrixGL m.pose
      let tail := gpLoop env markersA ch grp rh rest
      { ids := m.id :: tail.ids,
        mats := mat :: tail.mats,
        hides :=
          if rh then
            hideCopySingle ch grp (env.buildHide mat) :: tail.hides
          else tail.hides }

/-- `alvar_get_poses` (1.3): early return when `foundMarkers` is empty. -/

def alvar_get_poses13 (env : Env) (st : St13) (rh : Bool) : GPOut :=
  if st.foundMarkers.length = 0 then { ids := [], mats := [], hides := [] }
  else
    gpLoop env st.markers st.channels
      (numHideGroups st.hide_texture_size st.channels) rh st.foundMarkers

/-- `alvar_get_poses` (1.5): as 1.3, on the active detector's result. -/

def alvar_get_poses15 (env : Env) (st : St15) (rh : Bool) : GPOut :=
  if st.foundMarkers.length = 0 then { ids := [], mats := [], hides := [] }
  else
    gpLoop env (activeMarkers15 st) st.channels
      (numHideGroups st.hide_texture_size st.channels) rh st.foundMarkers

/-!
## Multi-marker (bundle) pose path (`alvar_get_multi_marker_poses`)
(1.3 lines 222-262, 1.5 lines 256-299)

Besides the written outputs we record the calls made into the vision engine
as a trace of events, so that side effects (which detector a call reads,
which `maxTrackError` an additional pass uses) are part of the embedding.
-/

/-- Vision-engine calls made by the bundle-pose path.  The detector index
names which instance's marker list the call reads (`0` for
`markerDetector`, `1` for `markerDetector2`). -/

inductive REvent
  /-- `multiMarkers[i].Update(<detector det's markers>, &cam, pose)`. -/
  | update (bundleIdx det : ℕ)
  /-- `multiMarkers[i].SetTrackMarkers(<detector det>, &cam, pose)`. -/
  | setTrack (bundleIdx det : ℕ)
  /-- `<detector det>.DetectAdditional(&image, &cam, false, maxTrackError)`. -/
  | detectAdd (det : ℕ) (maxTrackError : ℚ)
  deriving DecidableEq

/-- Outputs and effects of `alvar_get_multi_marker_poses`: the written
`ids`/`poseMats`/`errors`/hide-texture buffers, the trace of vision-engine
calls, and the final state of `markerDetector.markers` (the only detector
state the loop can change, through `DetectAdditional`). -/

structure MPOut where
  ids : List ℤ
  mats : List (List ℚ)
  errors : List ℚ
  hides : List (List (List ℕ))
  events : List REvent
  markers0 : List Marker
  deriving DecidableEq

/-- One iteration (bundle index `i`) of the `alvar_get_multi_marker_poses`
loop, 1.5 lines 265-298.  When `detect_additional` is set the iteration
first computes `errors[i]` from `markerDetector.markers`, pushes
track-marker hints, and runs `DetectAdditional` on `markerDetector` with the
recorded `curMaxTrackError`; the final `errors[i]` write then overwrites the
first.  The closing write always reads the active instance's marker list.
Variant 1.3 (lines 231-261) is the `det = 0` instance of this body. -/

def mpStep (env : Env) (det : ℤ) (da : Bool) (mte : ℚ)
    (markers1 : List Marker) (ch grp : ℕ) (rh : Bool)
    (acc : MPOut) (i : ℕ) (b : Bundle) : MPOut :=
  let acc1 := { acc with ids := acc.ids ++ [(i : ℤ)] }
  let acc2 :=
    if da then
      let r1 := env.update b acc1.markers0
      { acc1 with
        errors := acc1.errors ++ [r1.1],
        events := acc1.events ++
          [REvent.update i 0, REvent.setTrack i 0, REvent.detectAdd 0 mte],
        markers0 := env.detectAdd acc1.markers0 }
    else acc1
  let r2 := env.update b (if det = 0 then acc2.markers0 else markers1)
  let mat := env.getMatrixGL r2.2
  { acc2 with
    errors := if da then acc2.errors.set i r2.1 else acc2.errors ++ [r2.1],
    events := acc2.events ++ [REvent.update i (if det = 0 then 0 else 1)],
    mats := acc2.mats ++ [mat],
    hides :=
      if rh then
        acc2.hides ++ [hideCopyMulti ch grp (env.buildHide mat)]
      else acc2.hides }

/-- The `for(i = 0; i < multiMarkers.size(); ++i)` loop. -/

def mpLoop (env : Env) (det : ℤ) (da : Bool) (mte : ℚ)
    (markers1 : List Marker) (ch grp : ℕ) (rh : Bool) :
    List Bundle → ℕ → MPOut → MPOut
  | [], _, acc => acc
  | b :: rest, i, acc =>
      mpLoop env det da mte markers1 ch grp rh rest (i + 1)
        (mpStep env det da mte markers1 ch grp rh acc i b)

/-- The empty output (nothing written, no engine calls), with
`markerDetector.markers` unchanged. -/

def emptyMPOut (markers0 : List Marker) : MPOut :=
  { ids := [], mats := [], errors := [], hides := [], events := [],
    markers0 := markers0 }

/-- `alvar_get_multi_marker_poses` (1.5 lines 256-299): early return when
the active detector's detection result is empty. -/

def alvar_get_multi_marker_poses15 (env : Env) (st : St15) (rh : Bool) :
    MPOut :=
  if (activeMarkers15 st).length = 0 then emptyMPOut st.markers0
  else
    mpLoop env st.detector_id st.detect_additional st.curMaxTrackError
      st.markers1 st.channels (numHideGroups st.hide_texture_size st.channels)
      rh st.multiMarkers 0 (emptyMPOut st.markers0)

/-- `alvar_get_multi_marker_poses` (1.3 lines 222-262): the single-detector
variant, i.e. the `det = 0` instance of the same loop (the `markers1`
argument is never read when `det = 0`). -/

def alvar_get_multi_marker_poses13 (env : Env) (st : St13) (rh : Bool) :
    MPOut :=
  if st.markers.length = 0 then emptyMPOut st.markers
  else
    mpLoop env 0 st.detect_additional st.curMaxTrackError
      [] st.channels (numHideGroups st.hide_texture_size st.channels)
      rh st.multiMarkers 0 (emptyMPOut st.markers)

/-!
## Calibration session (variant 1.5 only, lines 301-347)
-/

/-- File-level effects of `alvar_finalize_calibration`. -/

inductive CalibEvent
  /-- `cam.Calibrate(pp)`. -/
  | calibrateCall
  /-- `cam.SaveCalib(filename)` attempted. -/
  | saveAttempt (path : String)
  deriving DecidableEq

/-- `alvar_calibrate_camera` (1.5 lines 301-333): attempts to find a
chessboard in the frame; on success the observation is accumulated and the
in-progress flag set. -/

def alvar_calibrate_camera15 (env : Env) (st : St15) (frame : Frame)
    (squareSize : ℚ) (rows cols : ℤ) : Bool × St15 :=
  match env.chessboard frame squareSize rows cols with
  | some obs =>
      (true, { st with pp := st.pp ++ [obs], calibration_started := true })
  | none => (false, st)

/-- `alvar_finalize_calibration` (1.5 lines 335-347): fails immediately when
no calibration is in progress; otherwise computes the calibration, clears
the accumulator unconditionally, attempts to save, and clears the
in-progress flag only on a successful save. -/

def alvar_finalize_calibration15 (env : Env) (st : St15) (path : String) :
    Bool × St15 × List CalibEvent :=
  if st.calibration_started = false then (false, st, [])
  else
    let st1 := { st with cam := env.calibrate st.pp, pp := [] }
    let ok := env.saveCalibOk path
    let st2 := if ok then { st1 with calibration_started := false } else st1
    (ok, st2, [CalibEvent.calibrateCall, CalibEvent.saveAttempt path])

/-!
## Closed form of the bundle-pose loop

`mpSpec` is the specification-side closed form of `mpLoop`: the outputs per
bundle, with the `errors[i]` double-write already resolved to its final
value and the marker-list threading made explicit.
-/

/-- Closed form of the loop outputs from bundle index `i` with
`markerDetector.markers = m0`. -/

def mpSpec (env : Env) (det : ℤ) (da : Bool) (mte : ℚ)
    (markers1 : List Marker) (ch grp : ℕ) (rh : Bool) :
    ℕ → List Marker → List Bundle → MPOut
  | _, m0, [] => emptyMPOut m0
  | i, m0, b :: rest =>
      let m0' := if da then env.detectAdd m0 else m0
      let r2 := env.update b (if det = 0 then m0' else markers1)
      let mat := env.getMatrixGL r2.2
      let tail := mpSpec env det da mte markers1 ch grp rh (i + 1) m0' rest
      { ids := (i : ℤ) :: tail.ids,
        mats := mat :: tail.mats,
        errors := r2.1 :: tail.errors,
        hides :=
          if rh then
            hideCopyMulti ch grp (env.buildHide mat) :: tail.hides
          else tail.hides,
        events :=
          (if da then
            [REvent.update i 0, REvent.setTrack i 0, REvent.detectAdd 0 mte]
           else []) ++
            REvent.update i (if det = 0 then 0 else 1) :: tail.events,
        markers0 := tail.markers0 }

/-- Pointwise concatenation of loop outputs. -/

def mpAppend (acc t : MPOut) : MPOut :=
  { ids := acc.ids ++ t.ids, mats := acc.mats ++ t.mats,
    errors := acc.errors ++ t.errors, hides := acc.hides ++ t.hides,
    events := acc.events ++ t.events, markers0 := t.markers0 }

/-- Specification-side event trace of the bundle loop when
`detect_additional` is enabled: per bundle (indices from `i`, count `n`) a
first `Update` reading `markerDetector.markers`, the track-marker hints,
exactly one `DetectAdditional` on detector 0 with the recorded
`maxTrackError`, then the final `Update` reading the active instance. -/

def expectedEventsDA (det : ℤ) (mte : ℚ) : ℕ → ℕ → List REvent
  | _, 0 => []
  | i, n + 1 =>
      REvent.update i 0 :: REvent.setTrack i 0 :: REvent.detectAdd 0 mte ::
        REvent.update i (if det = 0 then 0 else 1) ::
          expectedEventsDA det mte (i + 1) n

/-- Specification-side `errors` output when `detect_additional` is enabled:
each bundle's reported error is the second `Update`, computed after the
`DetectAdditional` refinement of `markerDetector.markers` — read through the
refinement when detector 0 is active, from the untouched
`markerDetector2.markers` otherwise. -/

def expectedErrorsDA (env : Env) (det : ℤ) (markers1 : List Marker) :
    List Marker → List Bundle → List ℚ
  | _, [] => []
  | m0, b :: rest =>
      let m0' := env.detectAdd m0
      (env.update b (if det = 0 then m0' else markers1)).1 ::
        expectedErrorsDA env det markers1 m0' rest

/-!
## Concrete instances used by witnesses and counterexamples
-/

/-- A concrete vision-engine environment (all external calls fail /
return trivial data). -/

def env00 : Env where
  detect := fun _ _ _ _ => []
  detectAdd := fun l => l
  update := fun _ _ => (0, { val := 0 })
  getMatrixGL := fun _ => []
  buildHide := fun _ k => k
  setCalibOk := fun _ => false
  chessboard := fun _ _ _ _ => none
  calibrate := fun _ => Calib.computed 0
  saveCalibOk := fun _ => false
  loadXml := fun _ => none
  loadDefault := fun _ => none

/-- A concrete vision-engine environment whose external calls succeed. -/

def env01 : Env :=
  { env00 with
    detect := fun _ _ _ _ =>
      [{ id := 3, pose := { val := 1 } }, { id := 7, pose := { val := 2 } }],
    setCalibOk := fun _ => true,
    saveCalibOk := fun _ => true,
    chessboard := fun _ _ _ _ => some 5,
    loadXml := fun _ => some 4,
    loadDefault := fun _ => some 3 }

/-- Session state with detector 1 active, a marker in detector 1's result,
one registered bundle and detect-additional enabled. -/

def stC3 : St15 :=
  { (default : St15) with
    detector_id := 1,
    markers1 := [{ id := 7, pose := { val := 0 } }],
    multiMarkers := [{ memberIds := [7], geometry := some 0 }],
    detect_additional := true,
    curMaxTrackError := 3 }

/-- Session state with detector 0 active, one detected marker, two
registered bundles and detect-additional enabled. -/

def stW3 : St15 :=
  { (default : St15) with
    markers0 := [{ id := 7, pose := { val := 0 } }],
    multiMarkers := [{ memberIds := [7], geometry := some 0 },
                     { memberIds := [9], geometry := none }],
    detect_additional := true,
    curMaxTrackError := 3 }

/-- Variant-1.3 state with one detected marker and one registered bundle. -/

def stW13 : St13 :=
  { (default : St13) with
    markers := [{ id := 7, pose := { val := 0 } }],
    multiMarkers := [{ memberIds := [7], geometry := some 0 }] }

/-- Variant-1.5 state with an empty detection result but a registered
bundle and detect-additional enabled. -/

def stE15 : St15 :=
  { (default : St15) with
    multiMarkers := [{ memberIds := [7], geometry := some 0 }],
    detect_additional := true }

/-- Variant-1.3 state with an empty detection result but a registered
bundle and detect-additional enabled. -/

def stE13 : St13 :=
  { (default : St13) with
    multiMarkers := [{ memberIds := [7], geometry := some 0 }],
    detect_additional := true }

/-- State with a calibration in progress and one accumulated observation. -/

def stCal : St15 :=
  { (default : St15) with pp := [5], calibration_started := true }

/-!
## Theorems
-/

theorem mapFind_mapInsert (t : List (ℤ × ℕ)) (y : ℤ) (i : ℕ) (x : ℤ) :
    mapFind (mapInsert t y i) x = if y = x then some i else mapFind t x := by
  induction t with
  | nil => simp [mapInsert, mapFind]
  | cons p rest ih =>
      obtain ⟨k, v⟩ := p
      by_cases hky : k = y
      · subst hky
        by_cases hx : k = x <;> simp [mapInsert, mapFind, hx]
      · by_cases hx : k = x
        · subst hx
          have : ¬(y = k) := fun h => hky h.symm
          simp [mapInsert, mapFind, hky, this]
        · simp [mapInsert, mapFind, hky, hx, ih]

theorem mapFind_buildIdTableAux (ids : List ℤ) :
    ∀ (t : List (ℤ × ℕ)) (i : ℕ) (x : ℤ),
      mapFind (buildIdTableAux t i ids) x =
        (match lastIdx ids x with
         | some k => some (i + k)
         | none => mapFind t x) := by
  induction ids with
  | nil => intro t i x; simp [buildIdTableAux, lastIdx]
  | cons y rest ih =>
      intro t i x
      rw [buildIdTableAux, ih]
      cases h : lastIdx rest x with
      | some k =>
          simp only [lastIdx, h]
          congr 1
          omega
      | none =>
          simp only [lastIdx, h, mapFind_mapInsert]
          by_cases hyx : y = x <;> simp [hyx]

/-- The table built by `alvar_detect_marker` maps each id to the index of its
last occurrence in detection order. -/

theorem mapFind_buildIdTable (ids : List ℤ) (x : ℤ) :
    mapFind (buildIdTable ids) x = lastIdx ids x := by
  rw [buildIdTable, mapFind_buildIdTableAux]
  cases h : lastIdx ids x <;> simp [mapFind]

theorem lastIdx_get (ids : List ℤ) (x : ℤ) (k : ℕ)
    (h : lastIdx ids x = some k) : ids.get? k = some x := by
  induction ids generalizing k with
  | nil => simp [lastIdx] at h
  | cons y rest ih =>
      rw [lastIdx] at h
      cases hr : lastIdx rest x with
      | some k' =>
          rw [hr] at h
          simp only [Option.some.injEq] at h
          subst h
          simpa using ih k' hr
      | none =>
          rw [hr] at h
          by_cases hyx : y = x
          · rw [if_pos hyx] at h
            have hk0 : k = 0 := by simpa using h.symm
            subst hk0
            simp [hyx]
          · simp [hyx] at h

theorem lastIdx_eq_none (ids : List ℤ) (x : ℤ) :
    lastIdx ids x = none ↔ x ∉ ids := by
  induction ids with
  | nil => simp [lastIdx]
  | cons y rest ih =>
      rw [lastIdx]
      cases hr : lastIdx rest x with
      | some k =>
          simp only []
          constructor
          · intro h; simp at h
          · intro h
            exfalso
            have : x ∈ rest := by
              have := lastIdx_get rest x k hr
              exact List.get?_mem this
            exact h (List.mem_cons_of_mem y this)
      | none =>
          by_cases hyx : y = x
          · subst hyx
            simp
          · simp only [if_neg hyx]
            rw [ih] at hr
            have hxy : x ≠ y := fun h => hyx h.symm
            simp [List.mem_cons, hr, hxy]

theorem lastIdx_ge (ids : List ℤ) (x : ℤ) (k : ℕ)
    (h : lastIdx ids x = some k) :
    ∀ m, ids.get? m = some x → m ≤ k := by
  induction ids generalizing k with
  | nil => intro m hm; simp at hm
  | cons y rest ih =>
      intro m hm
      rw [lastIdx] at h
      cases hr : lastIdx rest x with
      | some k' =>
          rw [hr] at h
          simp only [Option.some.injEq] at h
          subst h
          cases m with
          | zero => omega
          | succ m' =>
              have : rest.get? m' = some x := by simpa using hm
              have := ih k' hr m' this
              omega
      | none =>
          rw [hr] at h
          by_cases hyx : y = x
          · rw [if_pos hyx] at h
            have hk0 : k = 0 := by simpa using h.symm
            subst hk0
            cases m with
            | zero => exact Nat.le_refl 0
            | succ m' =>
                have hm' : rest.get? m' = some x := by simpa using hm
                exfalso
                exact (lastIdx_eq_none rest x).mp hr (List.get?_mem hm')
          · simp [hyx] at h

theorem lastIdx_isSome_iff_mem (ids : List ℤ) (x : ℤ) :
    (lastIdx ids x).isSome ↔ x ∈ ids := by
  constructor
  · intro h
    obtain ⟨k, hk⟩ := Option.isSome_iff_exists.mp h
    exact List.get?_mem (lastIdx_get ids x k hk)
  · intro h
    cases hn : lastIdx ids x with
    | some k => simp
    | none => exact absurd h ((lastIdx_eq_none ids x).mp hn)

theorem lastIdx_lt_length (ids : List ℤ) (x : ℤ) (k : ℕ)
    (h : lastIdx ids x = some k) : k < ids.length := by
  have := lastIdx_get ids x k h
  by_contra hk
  rw [List.get?_eq_none.mpr (by omega)] at this
  exact Option.noConfusion this

theorem lastIdx_inj (ids : List ℤ) (x x' : ℤ) (k : ℕ)
    (h : lastIdx ids x = some k) (h' : lastIdx ids x' = some k) : x = x' := by
  have h1 := lastIdx_get ids x k h
  have h2 := lastIdx_get ids x' k h'
  rw [h1] at h2
  exact (Option.some.injEq _ _ ▸ h2)

theorem resolveLoop_eq (t : List (ℤ × ℕ)) (l : List ℤ) :
    resolveLoop t l =
      (l.filterMap (fun x => mapFind t x),
       (l.filterMap (fun x => mapFind t x)).length) := by
  induction l with
  | nil => simp [resolveLoop]
  | cons x rest ih =>
      rw [resolveLoop]
      cases h : mapFind t x <;>
        simp [List.filterMap_cons, h, ih]

theorem resolveInterest_eq (markerIds requested : List ℤ) :
    resolveInterest markerIds requested =
      (requested.filterMap (fun x => lastIdx markerIds x),
       (requested.filterMap (fun x => lastIdx markerIds x)).length) := by
  rw [resolveInterest]
  by_cases hg : 0 < markerIds.length ∧ 0 < requested.length
  · rw [if_pos hg, resolveLoop_eq]
    have : (fun x => mapFind (buildIdTable markerIds) x) =
        fun x => lastIdx markerIds x :=
      funext fun x => mapFind_buildIdTable markerIds x
    rw [this]
  · rw [if_neg hg]
    push_neg at hg
    rcases Nat.eq_zero_or_pos markerIds.length with hm | hm
    · have hnil : markerIds = [] := List.length_eq_zero.mp hm
      subst hnil
      have h0 : List.filterMap (fun x => lastIdx [] x) requested = [] := by
        simp [lastIdx]
      simp [h0]
    · have hr : requested.length = 0 := by
        have := hg hm
        omega
      have hnil : requested = [] := List.length_eq_zero.mp hr
      subst hnil
      simp

theorem swapFirstThird_hideGroupSingle (channels : ℕ) (src : ℕ → ℕ) (j : ℕ) :
    swapFirstThird (hideGroupSingle channels src j) =
      hideGroupMulti channels src j := by
  rw [hideGroupSingle, hideGroupMulti]
  rfl

theorem swapFirstThird_hideGroupMulti (channels : ℕ) (src : ℕ → ℕ) (j : ℕ) :
    swapFirstThird (hideGroupMulti channels src j) =
      hideGroupSingle channels src j := by
  rw [hideGroupSingle, hideGroupMulti]
  rfl

/-- C5: For every identical pose and source hide-texture, the single-marker
path preserves the source channel order while the multi-marker/bundle path
swaps the first and third channels; when 4 channels are configured the
fourth (alpha) byte is copied unchanged on both paths, so the two outputs
are R/B channel-swapped copies of each other with identical alpha.
(`hideCopySingle` is the copy loop of `alvar_get_poses`, `hideCopyMulti`
the copy loop of `alvar_get_multi_marker_poses`; both read the same
scratch-texture bytes `src` produced by `BuildHideTexture` from the pose.) -/

theorem hide_texture_channel_order (channels n : ℕ) (src : ℕ → ℕ) :
    hideCopyMulti channels n src =
      (hideCopySingle channels n src).map swapFirstThird ∧
    hideCopySingle channels n src =
      (hideCopyMulti channels n src).map swapFirstThird ∧
    (channels = 4 → ∀ g, g < n →
      ((hideCopySingle channels n src).getD g []).getD 3 0 =
        src (g * channels + 3) ∧
      ((hideCopyMulti channels n src).getD g []).getD 3 0 =
        src (g * channels + 3)) := by
  refine ⟨?_, ?_, ?_⟩
  · simp [hideCopyMulti, hideCopySingle, List.map_map, Function.comp_def,
      swapFirstThird_hideGroupSingle]
  · simp [hideCopyMulti, hideCopySingle, List.map_map, Function.comp_def,
      swapFirstThird_hideGroupMulti]
  · intro h4 g hg
    subst h4
    constructor
    · simp [hideCopySingle, List.getD, List.getElem?_map, List.getElem?_range,
        hg, hideGroupSingle]
    · simp [hideCopyMulti, List.getD, List.getElem?_map, List.getElem?_range,
        hg, hideGroupMulti]

/-- Witness for C5 at a concrete configuration (4 channels, 2 groups,
the identity scratch texture). -/

theorem hide_texture_channel_order_witness :
    hideCopyMulti 4 2 (fun k => k) =
      (hideCopySingle 4 2 (fun k => k)).map swapFirstThird ∧
    hideCopySingle 4 2 (fun k => k) =
      (hideCopyMulti 4 2 (fun k => k)).map swapFirstThird ∧
    ((4 : ℕ) = 4 → ∀ g, g < 2 →
      ((hideCopySingle 4 2 (fun k => k)).getD g []).getD 3 0 = g * 4 + 3 ∧
      ((hideCopyMulti 4 2 (fun k => k)).getD g []).getD 3 0 = g * 4 + 3) :=
  hide_texture_channel_order 4 2 (fun k => k)

theorem set_append_length {α : Type} (l : List α) (x y : α) :
    (l ++ [x]).set l.length y = l ++ [y] := by
  induction l with
  | nil => rfl
  | cons a rest ih => simp [ih]

theorem mpStep_errors_length (env : Env) (det : ℤ) (da : Bool) (mte : ℚ)
    (m1 : List Marker) (ch grp : ℕ) (rh : Bool) (acc : MPOut) (i : ℕ)
    (b : Bundle) :
    (mpStep env det da mte m1 ch grp rh acc i b).errors.length
      = acc.errors.length + 1 := by
  cases da <;> simp [mpStep]

theorem mpLoop_eq (env : Env) (det : ℤ) (da : Bool) (mte : ℚ)
    (m1 : List Marker) (ch grp : ℕ) (rh : Bool) (bs : List Bundle) :
    ∀ (i : ℕ) (acc : MPOut), acc.errors.length = i →
      mpLoop env det da mte m1 ch grp rh bs i acc =
        mpAppend acc (mpSpec env det da mte m1 ch grp rh i acc.markers0 bs) := by
  induction bs with
  | nil =>
      intro i acc h
      simp [mpLoop, mpSpec, mpAppend, emptyMPOut]
  | cons b rest ih =>
      intro i acc h
      rw [mpLoop,
        ih (i + 1) _ (by rw [mpStep_errors_length, h])]
      cases da
      · cases rh <;> simp [mpStep, mpSpec, mpAppend, List.append_assoc]
      · cases rh <;> simp [mpStep, mpSpec, mpAppend, List.append_assoc, ← h,
          set_append_length]

theorem mpSpec_ids (env : Env) (det : ℤ) (da : Bool) (mte : ℚ)
    (m1 : List Marker) (ch grp : ℕ) (rh : Bool) :
    ∀ (i : ℕ) (m0 : List Marker) (bs : List Bundle),
      (mpSpec env det da mte m1 ch grp rh i m0 bs).ids
        = (List.range' i bs.length).map Int.ofNat := by
  intro i m0 bs
  induction bs generalizing i m0 with
  | nil => simp [mpSpec, emptyMPOut]
  | cons b rest ih => simp [mpSpec, List.range'_succ, ih]

theorem mpSpec_markers0 (env : Env) (det : ℤ) (da : Bool) (mte : ℚ)
    (m1 : List Marker) (ch grp : ℕ) (rh : Bool) :
    ∀ (i : ℕ) (m0 : List Marker) (bs : List Bundle),
      (mpSpec env det da mte m1 ch grp rh i m0 bs).markers0
        = if da then env.detectAdd^[bs.length] m0 else m0 := by
  intro i m0 bs
  induction bs generalizing i m0 with
  | nil => cases da <;> simp [mpSpec, emptyMPOut]
  | cons b rest ih =>
      cases da <;>
        simp [mpSpec, ih, Function.iterate_succ_apply]

theorem mpSpec_events_da (env : Env) (det : ℤ) (mte : ℚ)
    (m1 : List Marker) (ch grp : ℕ) (rh : Bool) :
    ∀ (i : ℕ) (m0 : List Marker) (bs : List Bundle),
      (mpSpec env det true mte m1 ch grp rh i m0 bs).events
        = expectedEventsDA det mte i bs.length := by
  intro i m0 bs
  induction bs generalizing i m0 with
  | nil => simp [mpSpec, emptyMPOut, expectedEventsDA]
  | cons b rest ih => simp [mpSpec, expectedEventsDA, ih]

theorem mpSpec_errors_da (env : Env) (det : ℤ) (mte : ℚ)
    (m1 : List Marker) (ch grp : ℕ) (rh : Bool) :
    ∀ (i : ℕ) (m0 : List Marker) (bs : List Bundle),
      (mpSpec env det true mte m1 ch grp rh i m0 bs).errors
        = expectedErrorsDA env det m1 m0 bs := by
  intro i m0 bs
  induction bs generalizing i m0 with
  | nil => simp [mpSpec, emptyMPOut, expectedErrorsDA]
  | cons b rest ih => simp [mpSpec, expectedErrorsDA, ih]

/-- C3 counterexample: with detector 1 active and detect-additional enabled,
the additional (track-only) detection pass runs on detector 0 — not on the
active detector as the claim states: the concrete trace contains
`detectAdd 0` and no `detectAdd 1` event at all, and the first pose/error
computation also reads detector 0's markers. -/

theorem detect_additional_not_on_active_detector :
    stC3.detector_id = 1 ∧ stC3.detect_additional = true ∧
    (alvar_get_multi_marker_poses15 env00 stC3 false).events =
      [REvent.update 0 0, REvent.setTrack 0 0, REvent.detectAdd 0 3,
       REvent.update 0 1] ∧
    ∀ q : ℚ, REvent.detectAdd 1 q ∉
      (alvar_get_multi_marker_poses15 env00 stC3 false).events := by
  refine ⟨rfl, rfl, by decide, ?_⟩
  intro q
  have h : (alvar_get_multi_marker_poses15 env00 stC3 false).events =
      [REvent.update 0 0, REvent.setTrack 0 0, REvent.detectAdd 0 3,
       REvent.update 0 1] := by decide
  rw [h]
  simp

/-- C3 (amended): for every bundle-pose request with detect-additional
enabled (and a non-empty active detection result), each bundle's update
performs a first pose/error computation on detector 0's markers whose
result is discarded, pushes track-marker hints, runs exactly one additional
track-only detection pass on THE PRIMARY DETECTOR (index 0) — not the
active detector — reusing the `curMaxTrackError` recorded by the most
recent full detect call, and then recomputes and returns the bundle
pose/error from the active detector's detection result (which reflects the
refinement only when detector 0 is active). -/

theorem detect_additional_refine_pass (env : Env) (st : St15) (rh : Bool)
    (hda : st.detect_additional = true)
    (hne : ¬(activeMarkers15 st).length = 0) :
    (alvar_get_multi_marker_poses15 env st rh).events =
      expectedEventsDA st.detector_id st.curMaxTrackError 0
        st.multiMarkers.length ∧
    (alvar_get_multi_marker_poses15 env st rh).errors =
      expectedErrorsDA env st.detector_id st.markers1 st.markers0
        st.multiMarkers ∧
    (alvar_get_multi_marker_poses15 env st rh).markers0 =
      env.detectAdd^[st.multiMarkers.length] st.markers0 := by
  simp only [alvar_get_multi_marker_poses15]
  rw [if_neg hne]
  rw [mpLoop_eq env st.detector_id st.detect_additional st.curMaxTrackError
    st.markers1 st.channels (numHideGroups st.hide_texture_size st.channels)
    rh st.multiMarkers 0 (emptyMPOut st.markers0) rfl]
  rw [hda]
  refine ⟨?_, ?_, ?_⟩
  · simp [mpAppend, emptyMPOut, mpSpec_events_da]
  · simp [mpAppend, emptyMPOut, mpSpec_errors_da]
  · simp [mpAppend, emptyMPOut, mpSpec_markers0]

/-- Witness for the amended C3 at a concrete state (detector 0 active, one
detected marker, two bundles). -/

theorem detect_additional_refine_pass_witness :
    (alvar_get_multi_marker_poses15 env00 stW3 false).events =
      expectedEventsDA stW3.detector_id stW3.curMaxTrackError 0
        stW3.multiMarkers.length ∧
    (alvar_get_multi_marker_poses15 env00 stW3 false).errors =
      expectedErrorsDA env00 stW3.detector_id stW3.markers1 stW3.markers0
        stW3.multiMarkers ∧
    (alvar_get_multi_marker_poses15 env00 stW3 false).markers0 =
      env00.detectAdd^[stW3.multiMarkers.length] stW3.markers0 :=
  detect_additional_refine_pass env00 stW3 false rfl (by decide)

/-- C8: bundles are processed in registration order and the numeric id
reported for each bundle equals its registration index (`ids[i] = i`), in
both wrapper variants, independent of the bundles' member marker ids. -/

theorem bundle_ids_equal_registration_index (env : Env) (st : St15)
    (st' : St13) (rh rh' : Bool)
    (h15 : ¬(activeMarkers15 st).length = 0)
    (h13 : ¬st'.markers.length = 0) :
    (alvar_get_multi_marker_poses15 env st rh).ids =
      (List.range st.multiMarkers.length).map Int.ofNat ∧
    (alvar_get_multi_marker_poses13 env st' rh').ids =
      (List.range st'.multiMarkers.length).map Int.ofNat := by
  constructor
  · simp only [alvar_get_multi_marker_poses15]
    rw [if_neg h15]
    rw [mpLoop_eq env st.detector_id st.detect_additional st.curMaxTrackError
      st.markers1 st.channels (numHideGroups st.hide_texture_size st.channels)
      rh st.multiMarkers 0 (emptyMPOut st.markers0) rfl]
    simp [mpAppend, emptyMPOut, mpSpec_ids, List.range_eq_range']
  · simp only [alvar_get_multi_marker_poses13]
    rw [if_neg h13]
    rw [mpLoop_eq env 0 st'.detect_additional st'.curMaxTrackError
      [] st'.channels (numHideGroups st'.hide_texture_size st'.channels)
      rh' st'.multiMarkers 0 (emptyMPOut st'.markers) rfl]
    simp [mpAppend, emptyMPOut, mpSpec_ids, List.range_eq_range']

/-- Witness for C8: the first registered bundle reports id 0 (and the
second id 1) even though its member marker ids are 7 and 9. -/

theorem bundle_ids_equal_registration_index_witness :
    (alvar_get_multi_marker_poses15 env00 stW3 false).ids =
      (List.range stW3.multiMarkers.length).map Int.ofNat ∧
    (alvar_get_multi_marker_poses13 env00 stW13 false).ids =
      (List.range stW13.multiMarkers.length).map Int.ofNat :=
  bundle_ids_equal_registration_index env00 stW3 stW13 false false
    (by decide) (by decide)

/-- C10: when the active detector's current detection result is empty, the
bundle-pose request returns immediately: nothing is written to any output
buffer, no vision-engine call is made (so no bundle's pose or error is
updated), and `markerDetector.markers` is untouched — even when bundles are
registered and detect-additional is enabled.  Holds in both variants. -/

theorem empty_detection_multi_pose_noop (env : Env) (st : St15) (st' : St13)
    (rh rh' : Bool) (h15 : (activeMarkers15 st).length = 0)
    (h13 : st'.markers.length = 0) :
    alvar_get_multi_marker_poses15 env st rh = emptyMPOut st.markers0 ∧
    alvar_get_multi_marker_poses13 env st' rh' = emptyMPOut st'.markers := by
  constructor
  · simp [alvar_get_multi_marker_poses15, h15]
  · simp [alvar_get_multi_marker_poses13, h13]

/-- Witness for C10 at concrete states with a registered bundle and
detect-additional enabled but an empty detection result. -/

theorem empty_detection_multi_pose_noop_witness :
    alvar_get_multi_marker_poses15 env00 stE15 true = emptyMPOut stE15.markers0 ∧
    alvar_get_multi_marker_poses13 env00 stE13 true = emptyMPOut stE13.markers :=
  empty_detection_multi_pose_noop env00 stE15 stE13 true true
    (by decide) (by decide)

theorem filterMap_lastIdx_map_getD (markerIds : List ℤ) (requested : List ℤ) :
    (requested.filterMap (fun x => lastIdx markerIds x)).map
        (fun idx => markerIds.getD idx 0) =
      requested.filter (fun x => decide (x ∈ markerIds)) := by
  induction requested with
  | nil => simp
  | cons x rest ih =>
      cases h : lastIdx markerIds x with
      | some k =>
          have hmem : x ∈ markerIds := by
            rw [← lastIdx_isSome_iff_mem, h]
            rfl
          have hget : markerIds[k]? = some x := by
            rw [← List.get?_eq_getElem?]
            exact lastIdx_get markerIds x k h
          simp [List.filterMap_cons, h, List.filter_cons, hmem, hget] at ih ⊢
          exact ih
      | none =>
          have hmem : x ∉ markerIds := (lastIdx_eq_none _ _).mp h
          simp [List.filterMap_cons, h, List.filter_cons, hmem] at ih ⊢
          exact ih

theorem filterMap_lastIdx_length_le (markerIds requested : List ℤ)
    (hnd : requested.Nodup) :
    (requested.filterMap (fun x => lastIdx markerIds x)).length ≤
      markerIds.length := by
  classical
  have hn : (requested.filterMap (fun x => lastIdx markerIds x)).Nodup := by
    refine List.Nodup.filterMap ?_ hnd
    intro a a' b hb hb'
    rw [Option.mem_def] at hb hb'
    exact lastIdx_inj markerIds a a' b hb hb'
  have hlt : ∀ k ∈ requested.filterMap (fun x => lastIdx markerIds x),
      k < markerIds.length := by
    intro k hk
    rw [List.mem_filterMap] at hk
    obtain ⟨x, _, hxk⟩ := hk
    exact lastIdx_lt_length markerIds x k hxk
  have h1 := List.toFinset_card_of_nodup hn
  have h2 : (requested.filterMap (fun x => lastIdx markerIds x)).toFinset ⊆
      Finset.range markerIds.length := by
    intro k hk
    rw [Finset.mem_range]
    exact hlt k (List.mem_toFinset.mp hk)
  calc (requested.filterMap (fun x => lastIdx markerIds x)).length
      = (requested.filterMap (fun x => lastIdx markerIds x)).toFinset.card :=
        h1.symm
    _ ≤ (Finset.range markerIds.length).card := Finset.card_le_card h2
    _ = markerIds.length := Finset.card_range _

/-- C1 (amended): for every detection result and every requested-id list —
duplicates included — the resolved interest selection lists, in the
caller's requested order, the index of each requested-id occurrence present
in the detection result (unmatched ids skipped, not padded): reading the
selection back through the detection result returns exactly the requested
ids that are present, in requested order.  The returned match count equals
the number of resolved entries and is always ≤ the length of the
requested-id list.  Only the remaining bound is conditional: the count is
≤ the size of the detection result provided the requested ids are pairwise
distinct (a duplicated requested id that matches is resolved and counted
once per occurrence, so without distinctness the count can exceed the
result size — see the counterexample). -/

theorem interest_selection_spec (markerIds requested : List ℤ) :
    (resolveInterest markerIds requested).1 =
      requested.filterMap (fun x => lastIdx markerIds x) ∧
    ((resolveInterest markerIds requested).1).map
        (fun idx => markerIds.getD idx 0) =
      requested.filter (fun x => decide (x ∈ markerIds)) ∧
    (resolveInterest markerIds requested).2 =
      (resolveInterest markerIds requested).1.length ∧
    (resolveInterest markerIds requested).2 ≤ requested.length ∧
    (requested.Nodup →
      (resolveInterest markerIds requested).2 ≤ markerIds.length) := by
  have he := resolveInterest_eq markerIds requested
  refine ⟨?_, ?_, ?_, ?_, ?_⟩
  · rw [he]
  · rw [he]
    exact filterMap_lastIdx_map_getD markerIds requested
  · rw [he]
  · rw [he]
    exact List.length_filterMap_le _ _
  · intro hnd
    rw [he]
    exact filterMap_lastIdx_length_le markerIds requested hnd

/-- Witness for C1 at the spec's own example (requesting `[7,3,9]` when the
frame contains ids `[3,7]` resolves `[1,0]` with match count 2) and at the
duplicated request `[3,3]` against ids `[3]`, where the unconditional
conjuncts hold as well (both occurrences resolve to index 0). -/

theorem interest_selection_spec_witness :
    ((resolveInterest [3, 7] [7, 3, 9]).1 =
      List.filterMap (fun x => lastIdx [3, 7] x) [7, 3, 9] ∧
    ((resolveInterest [3, 7] [7, 3, 9]).1).map
        (fun idx => List.getD ([3, 7] : List ℤ) idx 0) =
      List.filter (fun x => decide (x ∈ ([3, 7] : List ℤ))) [7, 3, 9] ∧
    (resolveInterest [3, 7] [7, 3, 9]).2 =
      (resolveInterest [3, 7] [7, 3, 9]).1.length ∧
    (resolveInterest [3, 7] [7, 3, 9]).2 ≤ ([7, 3, 9] : List ℤ).length ∧
    (List.Nodup ([7, 3, 9] : List ℤ) →
      (resolveInterest [3, 7] [7, 3, 9]).2 ≤ ([3, 7] : List ℤ).length)) ∧
    ((resolveInterest [3] [3, 3]).1 =
      List.filterMap (fun x => lastIdx [3] x) [3, 3] ∧
    ((resolveInterest [3] [3, 3]).1).map
        (fun idx => List.getD ([3] : List ℤ) idx 0) =
      List.filter (fun x => decide (x ∈ ([3] : List ℤ))) [3, 3] ∧
    (resolveInterest [3] [3, 3]).2 =
      (resolveInterest [3] [3, 3]).1.length ∧
    (resolveInterest [3] [3, 3]).2 ≤ ([3, 3] : List ℤ).length ∧
    (List.Nodup ([3, 3] : List ℤ) →
      (resolveInterest [3] [3, 3]).2 ≤ ([3] : List ℤ).length)) ∧
    resolveInterest [3, 7] [7, 3, 9] = ([1, 0], 2) ∧
    resolveInterest [3] [3, 3] = ([0, 0], 2) :=
  ⟨interest_selection_spec [3, 7] [7, 3, 9],
   interest_selection_spec [3] [3, 3], by decide, by decide⟩

/-- C1 counterexample: the claimed bound `matchCount ≤ size of the detection
result` fails when the requested-id list contains duplicates: with one
detected marker of id 3 and requested ids `[3,3]`, both requests resolve to
index 0 and the match count is 2 > 1. -/

theorem interest_selection_count_exceeds_result_size :
    resolveInterest [3] [3, 3] = ([0, 0], 2) ∧
    ¬((resolveInterest [3] [3, 3]).2 ≤ ([3] : List ℤ).length) := by
  decide

/-- C9: when the detection result contains two or more markers with the same
id, the id→index table maps that id to the index of its last occurrence in
detection order (later detections overwrite earlier ones), so a request for
that id resolves to the highest-index duplicate. -/

theorem idTable_last_occurrence_wins (ids : List ℤ) (x : ℤ) (i j : ℕ)
    (hij : i < j) (hi : ids.get? i = some x) (hj : ids.get? j = some x) :
    ∃ k, mapFind (buildIdTable ids) x = some k ∧ j ≤ k ∧
      ids.get? k = some x ∧ (∀ m, ids.get? m = some x → m ≤ k) ∧
      (resolveInterest ids [x]).1 = [k] := by
  have hmem : x ∈ ids := List.get?_mem hj
  have hsome : (lastIdx ids x).isSome := (lastIdx_isSome_iff_mem ids x).mpr hmem
  obtain ⟨k, hk⟩ := Option.isSome_iff_exists.mp hsome
  refine ⟨k, ?_, ?_, ?_, ?_, ?_⟩
  · rw [mapFind_buildIdTable, hk]
  · exact lastIdx_ge ids x k hk j hj
  · exact lastIdx_get ids x k hk
  · exact lastIdx_ge ids x k hk
  · rw [resolveInterest_eq]
    simp [List.filterMap_cons, hk]

/-- Witness for C9: ids `[5,7,5]` with the duplicate id 5 at indices 0 and
2: the table resolves id 5 to index 2. -/

theorem idTable_last_occurrence_wins_witness :
    ∃ k, mapFind (buildIdTable [5, 7, 5]) 5 = some k ∧ 2 ≤ k ∧
      List.get? ([5, 7, 5] : List ℤ) k = some 5 ∧
      (∀ m, List.get? ([5, 7, 5] : List ℤ) m = some 5 → m ≤ k) ∧
      (resolveInterest [5, 7, 5] [5]).1 = [k] :=
  idTable_last_occurrence_wins [5, 7, 5] 5 0 2 (by decide) (by decide)
    (by decide)

/-- C2 counterexample: with a geometry source that cannot be parsed (the
loaders of `env00` return `none`), `alvar_add_multi_marker` still appends a
bundle — with no geometry, i.e. half-initialized — to the registry of both
variants; and since the entry point's only result is the updated state
(`void` in the source), no load error reaches the caller. -/

theorem add_multi_marker_failed_parse_still_appends :
    loadByExt env00 "bad.cfg".toList = none ∧
    (alvar_add_multi_marker15 env00 (default : St15) [5]
        "bad.cfg".toList).multiMarkers =
      [{ memberIds := [5], geometry := none }] ∧
    (alvar_add_multi_marker13 env00 (default : St13) [5]
        "bad.cfg".toList).multiMarkers =
      [{ memberIds := [5], geometry := none }] := by
  decide

/-- C2 (amended): `alvar_add_multi_marker` reports no error to the caller
(the operation returns only the updated session state) and appends exactly
one bundle to the registry unconditionally — whether or not the geometry
source parses; on a failed parse the appended bundle carries no geometry
(registry state after the call, both variants). -/

theorem add_multi_marker_appends_unconditionally (env : Env) (st : St15)
    (st' : St13) (ids : List ℤ) (filename : List Char) :
    (alvar_add_multi_marker15 env st ids filename).multiMarkers =
      st.multiMarkers ++
        [{ memberIds := ids, geometry := loadByExt env filename }] ∧
    (alvar_add_multi_marker13 env st' ids filename).multiMarkers =
      st'.multiMarkers ++
        [{ memberIds := ids, geometry := loadByExt env filename }] :=
  ⟨rfl, rfl⟩

/-- C4: for every finalize-calibration call while a calibration is in
progress, the observation accumulator is cleared unconditionally (the
`Reset` precedes the save attempt and happens regardless of its outcome),
and the in-progress flag is cleared if and only if persisting the file
succeeds — after a failed save the flag remains set so a retry is
possible.  The returned boolean is the save result, and the call performs
exactly one calibration computation followed by one save attempt. -/

theorem finalize_calibration_in_progress (env : Env) (st : St15)
    (path : String) (h : st.calibration_started = true) :
    (alvar_finalize_calibration15 env st path).2.1.pp = [] ∧
    ((alvar_finalize_calibration15 env st path).2.1.calibration_started
        = false ↔ env.saveCalibOk path = true) ∧
    (alvar_finalize_calibration15 env st path).1 = env.saveCalibOk path ∧
    (alvar_finalize_calibration15 env st path).2.2 =
      [CalibEvent.calibrateCall, CalibEvent.saveAttempt path] := by
  simp only [alvar_finalize_calibration15, h]
  cases hs : env.saveCalibOk path <;> simp [hs]

/-- Witness for C4 at a concrete in-progress state with a failing save: the
accumulator is cleared yet the in-progress flag survives. -/

theorem finalize_calibration_in_progress_witness :
    (alvar_finalize_calibration15 env00 stCal "cam.calib").2.1.pp = [] ∧
    ((alvar_finalize_calibration15 env00 stCal "cam.calib").2.1.calibration_started
        = false ↔ env00.saveCalibOk "cam.calib" = true) ∧
    (alvar_finalize_calibration15 env00 stCal "cam.calib").1 =
      env00.saveCalibOk "cam.calib" ∧
    (alvar_finalize_calibration15 env00 stCal "cam.calib").2.2 =
      [CalibEvent.calibrateCall, CalibEvent.saveAttempt "cam.calib"] :=
  finalize_calibration_in_progress env00 stCal "cam.calib" rfl

/-- C6: a finalize-calibration call made when no prior add-observation call
has succeeded (the in-progress flag is not set) returns failure, leaves the
whole session state — in particular the observation accumulator — exactly
unchanged, computes no calibration and attempts no file write (empty effect
trace). -/

theorem finalize_calibration_not_started (env : Env) (st : St15)
    (path : String) (h : st.calibration_started = false) :
    alvar_finalize_calibration15 env st path = (false, st, []) := by
  simp [alvar_finalize_calibration15, h]

/-- Witness for C6: even with an environment whose save would succeed, the
un-started session fails with no side effects. -/

theorem finalize_calibration_not_started_witness :
    alvar_finalize_calibration15 env01 (default : St15) "cam.calib" =
      (false, (default : St15), []) :=
  finalize_calibration_not_started env01 (default : St15) "cam.calib" rfl

/-- C7: `alvar_init_camera` never hard-fails: it returns 0 exactly when a
non-null calibration file path is supplied and successfully parsed (loading
the intrinsics from it), and otherwise returns -1 and derives a synthetic
calibration from the resolution alone; in both cases the stored resolution
is updated and derived session state (the detect-additional flag, and in
variant 1.5 also the detector selection and the calibration in-progress
flag) is reset.  Stated for both variants. -/

theorem init_camera_spec (env : Env) (st : St15) (st' : St13)
    (calibFile : Option String) (w h : ℤ) :
    ((alvar_init_camera15 env st calibFile w h).1 = 0 ∨
      (alvar_init_camera15 env st calibFile w h).1 = -1) ∧
    ((alvar_init_camera15 env st calibFile w h).1 = 0 ↔
      ∃ f, calibFile = some f ∧ env.setCalibOk f = true) ∧
    (∀ f, calibFile = some f → env.setCalibOk f = true →
      (alvar_init_camera15 env st calibFile w h).2.cam = Calib.loaded f w h) ∧
    ((alvar_init_camera15 env st calibFile w h).1 = -1 →
      (alvar_init_camera15 env st calibFile w h).2.cam =
        Calib.synthetic w h) ∧
    (alvar_init_camera15 env st calibFile w h).2.cam_width = w ∧
    (alvar_init_camera15 env st calibFile w h).2.cam_height = h ∧
    (alvar_init_camera15 env st calibFile w h).2.detect_additional = false ∧
    (alvar_init_camera15 env st calibFile w h).2.detector_id = 0 ∧
    (alvar_init_camera15 env st calibFile w h).2.calibration_started = false ∧
    (alvar_init_camera13 env st' calibFile w h).1 =
      (alvar_init_camera15 env st calibFile w h).1 ∧
    (alvar_init_camera13 env st' calibFile w h).2.cam =
      (alvar_init_camera15 env st calibFile w h).2.cam ∧
    (alvar_init_camera13 env st' calibFile w h).2.cam_width = w ∧
    (alvar_init_camera13 env st' calibFile w h).2.cam_height = h ∧
    (alvar_init_camera13 env st' calibFile w h).2.detect_additional = false := by
  cases calibFile with
  | none => simp [alvar_init_camera15, alvar_init_camera13]
  | some f =>
      cases hc : env.setCalibOk f <;>
        simp [alvar_init_camera15, alvar_init_camera13, hc]
